import Mathlib

/-!
# Verification of the EBGAN loss module (torchgan/losses/energybased.py)

Shallow embedding of `EnergyBasedGeneratorLoss`, `EnergyBasedPullingAwayTerm`
and `EnergyBasedDiscriminatorLoss`.  Tensors are modelled as `List ℚ`
(a batch of scalars) or `List (List ℚ)` (a batch of vectors); machine floats
become exact rationals.  The loss helpers of torchgan/losses/functional.py
and the base classes GeneratorLoss/DiscriminatorLoss (torchgan/losses/loss.py)
are not part of the supplied sources; where needed they are modelled from the
spec (marked below), or kept opaque as function parameters.

Mutation of the discriminator object (its `embeddings` attribute) is modelled
by explicit state passing; a Python exception is an `Except.error`; the
side effects of an optimisation step are recorded as an ordered event trace.
-/

namespace Torchgan

/-- The reduction modes accepted by the losses (the strings
"none" | "mean" | "sum" of the Python constructors). -/
inductive Reduction
  | none
  | mean
  | sum
deriving DecidableEq

/-- Modelled from the spec: the `reduce` helper of torchgan/losses/functional.py
(not under src/).  "none" is the identity, "mean" averages over all elements,
"sum" adds them; an aggregated result is a singleton list (a scalar tensor). -/
def reduce (r : Reduction) (xs : List ℚ) : List ℚ :=
  match r with
  | .none => xs
  | .mean => [xs.sum / (xs.length : ℚ)]
  | .sum => [xs.sum]

/-- Modelled from the spec: `energy_based_generator_loss(dgz, reduction)` of
torchgan/losses/functional.py (not under src/): the discriminator's fake score
reduced per `reduction`. -/
def energy_based_generator_loss (dgz : List ℚ) (reduction : Reduction) : List ℚ :=
  reduce reduction dgz

/-- Modelled from the spec: `energy_based_discriminator_loss(dx, dgz, margin,
reduction)` of torchgan/losses/functional.py (not under src/): the reduction of
`dx + max(0, margin - dgz)` elementwise. -/
def energy_based_discriminator_loss (dx dgz : List ℚ) (margin : ℚ)
    (reduction : Reduction) : List ℚ :=
  reduce reduction (List.zipWith (fun a b => a + max 0 (margin - b)) dx dgz)

/-- Dot product of two embedding vectors. -/
def dot (x y : List ℚ) : ℚ :=
  (List.zipWith (fun a b => a * b) x y).sum

/-- Squared cosine similarity `(x·y / (‖x‖ ‖y‖))^2 = (x·y)^2 / ((x·x) (y·y))`
(squaring removes the square roots, so the value is rational). -/
def cosSq (x y : List ℚ) : ℚ :=
  (dot x y) ^ 2 / (dot x x * dot y y)

/-- Modelled from the spec: `energy_based_pulling_away_term(d_hid)` of
torchgan/losses/functional.py (not under src/):
`f_PT(S) = (1/(N(N-1))) Σ_i Σ_{j≠i} (S_i·S_j / (‖S_i‖ ‖S_j‖))^2`
for a batch `S` of `N` embedding vectors. -/
def energy_based_pulling_away_term (S : List (List ℚ)) : ℚ :=
  (∑ i in Finset.range S.length, ∑ j in Finset.range S.length,
      if i = j then 0 else cosSq (S.getD i []) (S.getD j [])) /
    ((S.length : ℚ) * ((S.length : ℚ) - 1))

/-- Configuration of `EnergyBasedGeneratorLoss` (reduction, from `__init__`
of the base class; the override is treated separately below). -/
structure EnergyBasedGeneratorLoss where
  reduction : Reduction

/-- `EnergyBasedGeneratorLoss.forward` (src lines 40-51):
`energy_based_generator_loss(dgz, self.reduction)`. -/
def EnergyBasedGeneratorLoss.forward (self : EnergyBasedGeneratorLoss)
    (dgz : List ℚ) : List ℚ :=
  energy_based_generator_loss dgz self.reduction

/-- Configuration of `EnergyBasedDiscriminatorLoss` (src lines 250-254). -/
structure EnergyBasedDiscriminatorLoss where
  reduction : Reduction
  margin : ℚ

/-- `EnergyBasedDiscriminatorLoss.forward` (src lines 256-272):
`energy_based_discriminator_loss(dx, dgz, self.margin, self.reduction)`. -/
def EnergyBasedDiscriminatorLoss.forward (self : EnergyBasedDiscriminatorLoss)
    (dx dgz : List ℚ) : List ℚ :=
  energy_based_discriminator_loss dx dgz self.margin self.reduction

/-- Configuration of `EnergyBasedPullingAwayTerm` (src lines 124-128):
`ptRat` models the Python attribute `pt_ratio`; the reduction is fixed to
"mean" by `__init__` and never read by `forward`. -/
structure EnergyBasedPullingAwayTerm where
  ptRat : ℚ

/-- `EnergyBasedPullingAwayTerm.forward` (src lines 130-142):
`self.pt_ratio * energy_based_pulling_away_term(d_hid)`; `dgz` is ignored. -/
def EnergyBasedPullingAwayTerm.forward (self : EnergyBasedPullingAwayTerm)
    (dgz : List ℚ) (d_hid : List (List ℚ)) : ℚ :=
  self.ptRat * energy_based_pulling_away_term d_hid

/-! ## The override branch of each `train_ops`

The call arguments are opaque Python values of a type `V`; the override is an
arbitrary function from the positional-argument list to a result.  Each
definition is the `self.override_train_ops is not None` branch of the
corresponding `train_ops`, recording exactly which arguments the source passes
to the override. -/

/-- `EnergyBasedGeneratorLoss.train_ops`, override branch (src lines 79-87):
the override is applied to `(generator, discriminator, optimizer_generator,
device, batch_size, labels)` and its result is returned. -/
def EnergyBasedGeneratorLoss.train_ops_override {V R : Type}
    (override_train_ops : List V → R)
    (generator discriminator optimizer_generator device batch_size labels : V) :
    R :=
  override_train_ops
    [generator, discriminator, optimizer_generator, device, batch_size, labels]

/-- `EnergyBasedPullingAwayTerm.train_ops`, override branch (src lines
175-183): the override is applied to `(generator, discriminator,
optimizer_generator, device, batch_size, labels)` and its result is
returned. -/
def EnergyBasedPullingAwayTerm.train_ops_override {V R : Type}
    (override_train_ops : List V → R)
    (generator discriminator optimizer_generator device batch_size labels : V) :
    R :=
  override_train_ops
    [generator, discriminator, optimizer_generator, device, batch_size, labels]

/-- `EnergyBasedDiscriminatorLoss.train_ops`, override branch (src lines
302-311): the override is applied to `(self, generator, discriminator,
optimizer_discriminator, real_inputs, device, labels)` — note the source
passes `self` in front and does not pass `batch_size`, although `train_ops`
itself received `batch_size` (src line 281). -/
def EnergyBasedDiscriminatorLoss.train_ops_override {V R : Type}
    (override_train_ops : List V → R)
    (selfVal generator discriminator optimizer_discriminator
      real_inputs device batch_size labels : V) : R :=
  override_train_ops
    [selfVal, generator, discriminator, optimizer_discriminator,
      real_inputs, device, labels]

/-! ## The default branch of the wrapping `train_ops` (generator/discriminator)

The only shared mutable state these branches touch is the discriminator's
`embeddings` attribute, a `Bool`.  `isAE` is
`isinstance(discriminator, AutoEncodingDiscriminator)`.  `inner` is the
base-class `train_ops` (torchgan/losses/loss.py, external to src/), kept
opaque: it receives the current flag, may change it, and either returns a
loss (`Except.ok`) or raises (`Except.error`).  In the source the restore
`setattr` runs only after a normal return of `inner`, so on `Except.error`
the flag is whatever `inner` left. -/

/-- `EnergyBasedGeneratorLoss.train_ops`, default branch (src lines 88-102):
snapshot the flag, force it to `False` when the discriminator is an
`AutoEncodingDiscriminator`, run the base `train_ops`, restore the snapshot
on normal return, and propagate an exception without restoring. -/
def EnergyBasedGeneratorLoss.train_ops_default {R E : Type}
    (isAE : Bool) (inner : Bool → Bool × Except E R) (embeddings : Bool) :
    Bool × Except E R :=
  let orig_value := embeddings
  let emb1 := if isAE then false else embeddings
  match inner emb1 with
  | (emb2, Except.ok loss) =>
      (if isAE then orig_value else emb2, Except.ok loss)
  | (emb2, Except.error e) => (emb2, Except.error e)

/-- `EnergyBasedDiscriminatorLoss.train_ops`, default branch (src lines
312-326): identical snapshot / force-`False` / run / restore-on-return
structure as the generator loss. -/
def EnergyBasedDiscriminatorLoss.train_ops_default {R E : Type}
    (isAE : Bool) (inner : Bool → Bool × Except E R) (embeddings : Bool) :
    Bool × Except E R :=
  let orig_value := embeddings
  let emb1 := if isAE then false else embeddings
  match inner emb1 with
  | (emb2, Except.ok loss) =>
      (if isAE then orig_value else emb2, Except.ok loss)
  | (emb2, Except.error e) => (emb2, Except.error e)

/-! ## The default branch of `EnergyBasedPullingAwayTerm.train_ops` -/

/-- The three exceptions `EnergyBasedPullingAwayTerm.train_ops` can raise
(src lines 185-196), with their messages. -/
inductive PTError
  | notAutoEncoder
  | requiresLabels
  | embeddingsDisabled
deriving DecidableEq

/-- The message of each exception raised (src lines 186-196). -/
def PTError.message : PTError → String
  | .notAutoEncoder => "EBGAN PT requires the Discriminator to be a AutoEncoder"
  | .requiresLabels => "EBGAN PT supports models which donot require labels"
  | .embeddingsDisabled => "EBGAN PT requires the embeddings for loss computation"

/-- The side effects of the pulling-away `train_ops`, in the order the
source performs them (src lines 197-206). -/
inductive PTEvent
  | sampleNoise (rows cols : Nat)
  | zero_grad
  | generatorForward
  | discriminatorForward
  | backward
  | step
deriving DecidableEq

/-- The generator as seen by `train_ops`: its `label_type` and
`encoding_dims` attributes and its forward pass (noise batch to fake
batch). -/
structure Generator where
  label_type : String
  encoding_dims : Nat
  forward : List (List ℚ) → List (List ℚ)

/-- The discriminator as seen by `train_ops`: `isAutoEncoding` is
`isinstance(·, AutoEncodingDiscriminator)`, `embeddings` the flag read by the
precondition check, and `forward` the autoencoding forward pass returning the
pair (hidden embedding `d_hid`, score `dgz`). -/
structure Discriminator where
  isAutoEncoding : Bool
  embeddings : Bool
  forward : List (List ℚ) → List (List ℚ) × List ℚ

/-- `EnergyBasedPullingAwayTerm.train_ops`, default branch (src lines
184-206): check the three preconditions in order, then sample noise of shape
`(batch_size, generator.encoding_dims)` (`sample` models `torch.randn`),
zero the generator gradient, run the generator, run the discriminator to get
`(d_hid, dgz)`, compute the loss by `forward`, back-propagate, step the
optimizer, and return the scalar loss.  Returned: the discriminator state
(this code never writes it), the ordered effect trace, and the raised error
or the loss. -/
def EnergyBasedPullingAwayTerm.train_ops_default
    (self : EnergyBasedPullingAwayTerm)
    (generator : Generator) (discriminator : Discriminator)
    (batch_size : Nat) (sample : Nat → Nat → List (List ℚ)) :
    Discriminator × List PTEvent × Except PTError ℚ :=
  if discriminator.isAutoEncoding = false then
    (discriminator, [], Except.error PTError.notAutoEncoder)
  else if ¬ generator.label_type = "none" then
    (discriminator, [], Except.error PTError.requiresLabels)
  else if discriminator.embeddings = false then
    (discriminator, [], Except.error PTError.embeddingsDisabled)
  else
    let noise := sample batch_size generator.encoding_dims
    let fake := generator.forward noise
    let p := discriminator.forward fake
    let loss := self.forward p.2 p.1
    (discriminator,
      [PTEvent.sampleNoise batch_size generator.encoding_dims,
        PTEvent.zero_grad, PTEvent.generatorForward,
        PTEvent.discriminatorForward, PTEvent.backward, PTEvent.step],
      Except.ok loss)

/-! ## Helper lemmas -/

/-- When every fake score is at least the margin, each elementwise term
`dx + max(0, margin - dgz)` collapses to the real score `dx`. -/
theorem zipWith_margin_vanish (m : ℚ) :
    ∀ (dx dgz : List ℚ), dx.length = dgz.length → (∀ b ∈ dgz, m ≤ b) →
      List.zipWith (fun a b => a + max 0 (m - b)) dx dgz = dx := by
  intro dx
  induction dx with
  | nil => intro dgz _ _; rfl
  | cons a tl ih =>
      intro dgz hlen hb
      cases dgz with
      | nil => simp at hlen
      | cons b tlb =>
          simp only [List.zipWith]
          have hmb : m - b ≤ 0 := sub_nonpos.mpr (hb b (by simp))
          rw [max_eq_left hmb, add_zero,
            ih tlb (by simpa using hlen) (fun c hc => hb c (List.mem_cons_of_mem _ hc))]

/-! ## Claims -/

/-- C1: `EnergyBasedDiscriminatorLoss.forward dx dgz` is the configured
reduction of the elementwise `dx + max(0, margin - dgz)`; when every element
of `dgz` is at least the margin the max term vanishes and the loss is the
reduction of `dx` alone; with reduction "mean" it is `10` on
`dx = [0,0], dgz = [0,0], margin = 10` and `3` on
`dx = [2,4], dgz = [10,10], margin = 5`. -/
theorem disc_forward_spec :
    ∀ (self : EnergyBasedDiscriminatorLoss) (dx dgz : List ℚ),
      (self.forward dx dgz =
        reduce self.reduction
          (List.zipWith (fun a b => a + max 0 (self.margin - b)) dx dgz))
      ∧ (dx.length = dgz.length → (∀ b ∈ dgz, self.margin ≤ b) →
          self.forward dx dgz = reduce self.reduction dx)
      ∧ EnergyBasedDiscriminatorLoss.forward ⟨Reduction.mean, 10⟩ [0, 0] [0, 0]
          = [10]
      ∧ EnergyBasedDiscriminatorLoss.forward ⟨Reduction.mean, 5⟩ [2, 4] [10, 10]
          = [3] := by
  intro self dx dgz
  refine ⟨rfl, fun hlen hb => ?_,
    by norm_num [EnergyBasedDiscriminatorLoss.forward,
      energy_based_discriminator_loss, reduce, List.zipWith, max_def],
    by norm_num [EnergyBasedDiscriminatorLoss.forward,
      energy_based_discriminator_loss, reduce, List.zipWith, max_def]⟩
  show energy_based_discriminator_loss dx dgz self.margin self.reduction = _
  unfold energy_based_discriminator_loss
  rw [zipWith_margin_vanish self.margin dx dgz hlen hb]

/-- C1 witness: at `dx = [2,4], dgz = [10,10], margin = 5, reduction = mean`
all hypotheses hold and the loss is the reduction of `dx` alone. -/
theorem disc_forward_spec_witness :
    EnergyBasedDiscriminatorLoss.forward ⟨Reduction.mean, 5⟩ [2, 4] [10, 10]
      = reduce Reduction.mean [2, 4] :=
  (disc_forward_spec ⟨Reduction.mean, 5⟩ [2, 4]
      [10, 10]).2.1 rfl (by norm_num)

/-- C7: `EnergyBasedGeneratorLoss.forward dgz` is `dgz` itself under
reduction "none", its mean under "mean" and its sum under "sum"; the two
aggregated forms equal the mean/sum of the "none" result; on `dgz = [1,3,5]`
with "mean" the loss is `3`. -/
theorem gen_forward_spec :
    ∀ dgz : List ℚ,
      EnergyBasedGeneratorLoss.forward ⟨Reduction.none⟩ dgz = dgz
      ∧ EnergyBasedGeneratorLoss.forward ⟨Reduction.mean⟩ dgz
          = [dgz.sum / (dgz.length : ℚ)]
      ∧ EnergyBasedGeneratorLoss.forward ⟨Reduction.sum⟩ dgz = [dgz.sum]
      ∧ reduce Reduction.mean (EnergyBasedGeneratorLoss.forward ⟨Reduction.none⟩ dgz)
          = EnergyBasedGeneratorLoss.forward ⟨Reduction.mean⟩ dgz
      ∧ reduce Reduction.sum (EnergyBasedGeneratorLoss.forward ⟨Reduction.none⟩ dgz)
          = EnergyBasedGeneratorLoss.forward ⟨Reduction.sum⟩ dgz
      ∧ EnergyBasedGeneratorLoss.forward ⟨Reduction.mean⟩ [1, 3, 5] = [3] :=
  fun _ => ⟨rfl, rfl, rfl, rfl, rfl,
    by norm_num [EnergyBasedGeneratorLoss.forward,
      energy_based_generator_loss, reduce]⟩

/-- C2 counterexample: with the identity function as the override and the
eight distinct arguments `self = 0, generator = 1, discriminator = 2,
optimizer_discriminator = 3, real_inputs = 4, device = 5, batch_size = 6,
labels = 7`, `EnergyBasedDiscriminatorLoss.train_ops` hands the override
`[0,1,2,3,4,5,7]`, not the argument list `[1,2,3,4,5,6,7]` it received:
`self` is prepended and `batch_size` is dropped. -/
theorem train_ops_override_counterexample :
    EnergyBasedDiscriminatorLoss.train_ops_override
        (fun a : List ℕ => a) 0 1 2 3 4 5 6 7 ≠ [1, 2, 3, 4, 5, 6, 7] := by
  decide

/-- C2 (amended): the generator loss and pulling-away term pass the override
exactly the arguments they received and return its result unchanged; the
discriminator loss also returns the override's result unchanged but passes
`self` as an extra first argument and drops `batch_size`. -/
theorem train_ops_override_delegation :
    ∀ (V R : Type) (o : List V → R)
      (selfVal generator discriminator optimizer device batch_size labels
        real_inputs : V),
      EnergyBasedGeneratorLoss.train_ops_override o generator discriminator
          optimizer device batch_size labels
        = o [generator, discriminator, optimizer, device, batch_size, labels]
      ∧ EnergyBasedPullingAwayTerm.train_ops_override o generator discriminator
          optimizer device batch_size labels
        = o [generator, discriminator, optimizer, device, batch_size, labels]
      ∧ EnergyBasedDiscriminatorLoss.train_ops_override o selfVal generator
          discriminator optimizer real_inputs device batch_size labels
        = o [selfVal, generator, discriminator, optimizer, real_inputs,
            device, labels] :=
  fun _ _ _ _ _ _ _ _ _ _ _ => ⟨rfl, rfl, rfl⟩

/-- C3 counterexample: on an autoencoding discriminator whose flag starts
`true`, when the inner train-step raises, `EnergyBasedGeneratorLoss.train_ops`
propagates the exception with the flag left at `false` — not restored to its
pre-call value `true`. -/
theorem embeddings_restore_counterexample :
    (EnergyBasedGeneratorLoss.train_ops_default true
        (fun b => (b, (Except.error () : Except Unit ℚ))) true).1 = false :=
  rfl

/-- C3 (amended): on an autoencoding discriminator the embeddings flag is
restored to its pre-call value on every normal return of the inner
train-step; but when the inner train-step raises, both wrapping `train_ops`
skip the restore and leave the flag as the inner step left it. -/
theorem embeddings_restore_amended :
    ∀ {R E : Type} (inner : Bool → Bool × Except E R) (emb b' : Bool)
      (r : R) (e : E),
      (inner false = (b', Except.ok r) →
        EnergyBasedGeneratorLoss.train_ops_default true inner emb
            = (emb, Except.ok r)
        ∧ EnergyBasedDiscriminatorLoss.train_ops_default true inner emb
            = (emb, Except.ok r))
      ∧ (inner false = (b', Except.error e) →
        EnergyBasedGeneratorLoss.train_ops_default true inner emb
            = (b', Except.error e)
        ∧ EnergyBasedDiscriminatorLoss.train_ops_default true inner emb
            = (b', Except.error e)) := by
  intro R E inner emb b' r e
  constructor
  · intro h
    exact ⟨by simp [EnergyBasedGeneratorLoss.train_ops_default, h],
      by simp [EnergyBasedDiscriminatorLoss.train_ops_default, h]⟩
  · intro h
    exact ⟨by simp [EnergyBasedGeneratorLoss.train_ops_default, h],
      by simp [EnergyBasedDiscriminatorLoss.train_ops_default, h]⟩

/-- C3 witness: a successful inner step that kept the flag at `false`; the
wrapper restores the pre-call value `true`. -/
theorem embeddings_restore_amended_witness :
    EnergyBasedGeneratorLoss.train_ops_default true
        (fun b => (b, (Except.ok (0 : ℚ) : Except Unit ℚ))) true
      = (true, Except.ok 0) :=
  ((embeddings_restore_amended
      (fun b => (b, (Except.ok (0 : ℚ) : Except Unit ℚ))) true false 0 ()).1
    rfl).1

/-- C4: on an autoencoding discriminator, both wrapping `train_ops` call the
inner train-step with the flag forced to `false`, and on a normal return the
flag equals exactly its pre-call snapshot — whatever that snapshot was and
whatever the inner step did to the flag. -/
theorem embeddings_toggle_success :
    ∀ {R E : Type} (inner : Bool → Bool × Except E R) (emb b' : Bool) (r : R),
      inner false = (b', Except.ok r) →
      EnergyBasedGeneratorLoss.train_ops_default true inner emb
          = (emb, Except.ok r)
      ∧ EnergyBasedDiscriminatorLoss.train_ops_default true inner emb
          = (emb, Except.ok r) := by
  intro R E inner emb b' r h
  exact ⟨by simp [EnergyBasedGeneratorLoss.train_ops_default, h],
    by simp [EnergyBasedDiscriminatorLoss.train_ops_default, h]⟩

/-- C4 witness: the flag starts `false`, the inner step flips it to `true`,
and the wrapper still restores the snapshot `false` (not an unconditional
`true`). -/
theorem embeddings_toggle_success_witness :
    EnergyBasedGeneratorLoss.train_ops_default true
        (fun b => (!b, (Except.ok (1 : ℚ) : Except Unit ℚ))) false
      = (false, Except.ok 1) :=
  (embeddings_toggle_success
      (fun b => (!b, (Except.ok (1 : ℚ) : Except Unit ℚ))) false true 1
    rfl).1

/-- C6: `EnergyBasedPullingAwayTerm.forward dgz S` equals
`pt_ratio * (1/(N(N-1))) * Σ_{i≠j} cos²(S_i, S_j)` and does not depend on
`dgz`; on a batch of two identical vectors of nonzero norm it is exactly
`pt_ratio * 1`, and on a pairwise-orthogonal batch it is `0`. -/
theorem pt_forward_spec :
    ∀ (self : EnergyBasedPullingAwayTerm) (dgz dgz' : List ℚ)
      (S T : List (List ℚ)) (v : List ℚ),
      dot v v ≠ 0 →
      (∀ i j : Nat, i < T.length → j < T.length → i ≠ j →
        dot (T.getD i []) (T.getD j []) = 0) →
      (self.forward dgz S =
          self.ptRat * ((1 / ((S.length : ℚ) * ((S.length : ℚ) - 1))) *
            ∑ i in Finset.range S.length, ∑ j in Finset.range S.length,
              if i = j then 0 else
                (dot (S.getD i []) (S.getD j [])) ^ 2 /
                  (dot (S.getD i []) (S.getD i []) *
                    dot (S.getD j []) (S.getD j []))))
      ∧ self.forward dgz S = self.forward dgz' S
      ∧ self.forward dgz [v, v] = self.ptRat * 1
      ∧ self.forward dgz T = 0 := by
  intro self dgz dgz' S T v hv horth
  refine ⟨?_, rfl, ?_, ?_⟩
  · show self.ptRat * energy_based_pulling_away_term S = _
    unfold energy_based_pulling_away_term cosSq
    rw [one_div_mul_eq_div]
  · show self.ptRat * energy_based_pulling_away_term [v, v] = self.ptRat * 1
    congr 1
    unfold energy_based_pulling_away_term
    simp [Finset.sum_range_succ, cosSq, List.getD]
    rw [div_eq_one_iff_eq (by norm_num)]
    field_simp
    ring
  · show self.ptRat * energy_based_pulling_away_term T = 0
    have hz : energy_based_pulling_away_term T = 0 := by
      unfold energy_based_pulling_away_term
      rw [Finset.sum_eq_zero, zero_div]
      intro i hi
      refine Finset.sum_eq_zero fun j hj => ?_
      by_cases h : i = j
      · simp [h]
      · simp only [if_neg h]
        rw [cosSq, horth i j (Finset.mem_range.mp hi) (Finset.mem_range.mp hj) h]
        norm_num
    rw [hz, mul_zero]

/-- C6 witness: with `pt_ratio = 2`, on the two identical vectors
`[1,2], [1,2]` the term is `2 * 1`, and on the orthogonal batch
`[1,0], [0,1]` it is `0`. -/
theorem pt_forward_spec_witness :
    EnergyBasedPullingAwayTerm.forward ⟨2⟩ [] [[1, 2], [1, 2]] = 2 * 1
    ∧ EnergyBasedPullingAwayTerm.forward ⟨2⟩ [] [[1, 0], [0, 1]] = 0 := by
  have h := pt_forward_spec ⟨2⟩ [] [0] [[1]]
    [[1, 0], [0, 1]] [1, 2]
    (by norm_num [dot, List.zipWith])
    (by
      intro i j hi hj hij
      simp only [List.length_cons, List.length_nil] at hi hj
      interval_cases i <;> interval_cases j <;>
        simp_all [dot, List.getD, List.zipWith])
  exact ⟨h.2.2.1, h.2.2.2⟩

/-- C5: `EnergyBasedPullingAwayTerm.train_ops` (no override) raises one of
the three configuration errors and performs no side effect (empty effect
trace: no noise sampling, no gradient zeroing, no optimizer step) whenever a
precondition is violated; when the discriminator is autoencoding, the
generator needs no labels and the embeddings flag is enabled, no error is
raised. -/
theorem pt_train_ops_precondition_check :
    ∀ (self : EnergyBasedPullingAwayTerm) (g : Generator) (d : Discriminator)
      (bs : Nat) (sample : Nat → Nat → List (List ℚ)),
      ((d.isAutoEncoding = false ∨ ¬ g.label_type = "none"
          ∨ d.embeddings = false) →
        ∃ e : PTError,
          self.train_ops_default g d bs sample = (d, [], Except.error e))
      ∧ (d.isAutoEncoding = true → g.label_type = "none" →
          d.embeddings = true →
        ∃ q : ℚ,
          (self.train_ops_default g d bs sample).2.2 = Except.ok q) := by
  intro self g d bs sample
  constructor
  · intro hviol
    by_cases h1 : d.isAutoEncoding = false
    · exact ⟨PTError.notAutoEncoder,
        by simp [EnergyBasedPullingAwayTerm.train_ops_default, h1]⟩
    · by_cases h2 : g.label_type = "none"
      · have h3 : d.embeddings = false := by
          rcases hviol with h | h | h
          · exact absurd h h1
          · exact absurd h2 h
          · exact h
        exact ⟨PTError.embeddingsDisabled,
          by simp [EnergyBasedPullingAwayTerm.train_ops_default, h1, h2, h3]⟩
      · exact ⟨PTError.requiresLabels,
          by simp [EnergyBasedPullingAwayTerm.train_ops_default, h1, h2]⟩
  · intro h1 h2 h3
    exact ⟨self.forward
        (d.forward (g.forward (sample bs g.encoding_dims))).2
        (d.forward (g.forward (sample bs g.encoding_dims))).1,
      by simp [EnergyBasedPullingAwayTerm.train_ops_default, h1, h2, h3]⟩

/-- C5 witness: a non-autoencoding discriminator makes the train step fail
with some configuration error and an empty effect trace. -/
theorem pt_train_ops_precondition_check_witness :
    ∃ e : PTError,
      EnergyBasedPullingAwayTerm.train_ops_default ⟨1⟩
          ⟨"none", 3, fun x => x⟩ ⟨false, true, fun f => (f, [])⟩ 2
          (fun _ _ => [])
        = (⟨false, true, fun f => (f, [])⟩, [], Except.error e) :=
  (pt_train_ops_precondition_check ⟨1⟩ ⟨"none", 3, fun x => x⟩
      ⟨false, true, fun f => (f, [])⟩ 2 (fun _ _ => [])).1 (Or.inl rfl)

/-- C8: when all three preconditions hold, the pulling-away train step
performs exactly, in order: sampling noise of shape
`(batch_size, generator.encoding_dims)`, zeroing the generator gradient, the
generator forward pass, the discriminator forward pass, back-propagation and
one optimizer step — and returns the scalar `forward dgz d_hid` where
`(d_hid, dgz)` is the discriminator's output on the generated batch. -/
theorem pt_train_ops_success_steps :
    ∀ (self : EnergyBasedPullingAwayTerm) (g : Generator) (d : Discriminator)
      (bs : Nat) (sample : Nat → Nat → List (List ℚ)),
      d.isAutoEncoding = true → g.label_type = "none" → d.embeddings = true →
      self.train_ops_default g d bs sample =
        (d, [PTEvent.sampleNoise bs g.encoding_dims, PTEvent.zero_grad,
          PTEvent.generatorForward, PTEvent.discriminatorForward,
          PTEvent.backward, PTEvent.step],
          Except.ok (self.forward
            (d.forward (g.forward (sample bs g.encoding_dims))).2
            (d.forward (g.forward (sample bs g.encoding_dims))).1)) := by
  intro self g d bs sample h1 h2 h3
  simp [EnergyBasedPullingAwayTerm.train_ops_default, h1, h2, h3]

/-- C8 witness: a concrete compatible generator/discriminator pair; the
discriminator returns orthogonal embeddings, so the returned loss is `0` and
the trace is the six steps in order. -/
theorem pt_train_ops_success_steps_witness :
    (EnergyBasedPullingAwayTerm.train_ops_default ⟨2⟩
        ⟨"none", 3, fun x => x⟩
        ⟨true, true, fun _ => ([[1, 0], [0, 1]], [0, 0])⟩ 2
        (fun _ _ => [])).2
      = ([PTEvent.sampleNoise 2 3, PTEvent.zero_grad,
          PTEvent.generatorForward, PTEvent.discriminatorForward,
          PTEvent.backward, PTEvent.step], Except.ok 0) := by
  have h := pt_train_ops_success_steps ⟨2⟩ ⟨"none", 3, fun x => x⟩
    ⟨true, true, fun _ => ([[1, 0], [0, 1]], [0, 0])⟩ 2 (fun _ _ => [])
    rfl rfl rfl
  rw [h]
  norm_num [EnergyBasedPullingAwayTerm.forward,
    energy_based_pulling_away_term, cosSq, dot, List.zipWith, List.getD,
    Finset.sum_range_succ]

/-- C9: the pulling-away train step never writes the discriminator's
embeddings flag: on the success path and on each of the three error paths
the flag (indeed the whole discriminator state) is unchanged. -/
theorem pt_train_ops_preserves_embeddings :
    ∀ (self : EnergyBasedPullingAwayTerm) (g : Generator) (d : Discriminator)
      (bs : Nat) (sample : Nat → Nat → List (List ℚ)),
      ((self.train_ops_default g d bs sample).1).embeddings = d.embeddings := by
  intro self g d bs sample
  by_cases h1 : d.isAutoEncoding = false
  · simp [EnergyBasedPullingAwayTerm.train_ops_default, h1]
  · by_cases h2 : g.label_type = "none"
    · by_cases h3 : d.embeddings = false
      · simp [EnergyBasedPullingAwayTerm.train_ops_default, h1, h2, h3]
      · simp [EnergyBasedPullingAwayTerm.train_ops_default, h1, h2, h3]
    · simp [EnergyBasedPullingAwayTerm.train_ops_default, h1, h2]

/-- C10: the three precondition checks run in a fixed order — autoencoding
discriminator first, then the generator's label type, then the embeddings
flag — so with several violations the error raised is the first in that
order, and with a non-autoencoding discriminator the result does not depend
on the generator at all. -/
theorem pt_train_ops_check_order :
    ∀ (self : EnergyBasedPullingAwayTerm) (g g' : Generator)
      (d : Discriminator) (bs : Nat) (sample : Nat → Nat → List (List ℚ)),
      (d.isAutoEncoding = false →
        self.train_ops_default g d bs sample
            = (d, [], Except.error PTError.notAutoEncoder)
        ∧ self.train_ops_default g d bs sample
            = self.train_ops_default g' d bs sample)
      ∧ (d.isAutoEncoding = true → ¬ g.label_type = "none" →
        self.train_ops_default g d bs sample
          = (d, [], Except.error PTError.requiresLabels))
      ∧ (d.isAutoEncoding = true → g.label_type = "none" →
          d.embeddings = false →
        self.train_ops_default g d bs sample
          = (d, [], Except.error PTError.embeddingsDisabled)) := by
  intro self g g' d bs sample
  refine ⟨fun h1 => ⟨?_, ?_⟩, fun h1 h2 => ?_, fun h1 h2 h3 => ?_⟩ <;>
    simp [EnergyBasedPullingAwayTerm.train_ops_default, h1, *]

/-- C10 witness: a discriminator that is not autoencoding combined with a
generator that also violates the label precondition still raises the
autoencoder error, and the result is the same under a different (compatible)
generator. -/
theorem pt_train_ops_check_order_witness :
    EnergyBasedPullingAwayTerm.train_ops_default ⟨1⟩
        ⟨"required", 1, fun x => x⟩ ⟨false, false, fun f => (f, [])⟩ 4
        (fun _ _ => [])
      = (⟨false, false, fun f => (f, [])⟩, [],
          Except.error PTError.notAutoEncoder) :=
  ((pt_train_ops_check_order ⟨1⟩ ⟨"required", 1, fun x => x⟩
      ⟨"none", 2, fun x => x⟩ ⟨false, false, fun f => (f, [])⟩ 4
      (fun _ _ => [])).1 rfl).1

end Torchgan
